import Mathlib

/-!
Verification of the `Ghostty-header.h` bridging header of the CodMate
repository.

The artifact under study is an 18-line C bridging header.  We embed it
shallowly: each physical line of the file becomes one value of an
inductive type `PPLine`, and the C preprocessor's treatment of the
constructs that actually occur in the file (comments, blank lines,
`#ifndef` / `#define` / `#endif` include guards, and the Objective-C
`#import` once-only inclusion directive) is given as an executable small
interpreter acting on a preprocessor state.  The file contains a single,
non-nested conditional region, so the interpreter tracks one skipping
flag; this is the exact semantics of the C preprocessor restricted to
non-nested conditionals.
-/

/-- One physical line of a C header, restricted to the kinds of lines
that can occur in the artifact: ordinary `//` comments, blank lines,
C declarations (functions, types, variables or statements, kept abstract
as their text), the guard directives, and the two inclusion directives
(`#import`, which is once-only, and `#include`, which is not). -/
inductive PPLine where
  | comment (text : String)
  | blank
  | declaration (text : String)
  | ifndefDirective (n : String)
  | defineDirective (n : String)
  | importDirective (path : String)
  | includeDirective (path : String)
  | endifDirective (text : String)
deriving DecidableEq

/-- Preprocessor-and-translation-unit state: the set of defined macros,
the set of header paths whose contents have been brought in (used by the
once-only `#import` check), the trace of executed inclusion-directive
lines (one entry per time such a line is reached outside a skipped
region), the trace of actual expansions of a target header (one entry
per time a target file's contents really get expanded into the
translation unit), and the C declarations accumulated so far. -/
structure PPState where
  defined : List String
  imported : List String
  importEvents : List String
  vendorExpansions : List String
  decls : List String
deriving DecidableEq

/-- The initial state of a fresh translation unit. -/
def emptyState : PPState := ⟨[], [], [], [], []⟩

/-- One step of the preprocessor on a single line, given the current
skipping flag (true inside an `#ifndef` region whose condition failed).
Faithful to the C preprocessor for the non-nested conditionals present
in the artifact: `#ifndef` starts skipping when the macro is already
defined, `#endif` stops skipping, `#define` records a macro,
`#import` expands its target only if that target was never brought in
before, `#include` expands its target unconditionally. -/
def processLine (sk : Bool) (st : PPState) : PPLine → Bool × PPState
  | .comment _ => (sk, st)
  | .blank => (sk, st)
  | .declaration d =>
      if sk then (sk, st) else (sk, { st with decls := st.decls ++ [d] })
  | .ifndefDirective n => (sk || st.defined.contains n, st)
  | .defineDirective n =>
      if sk then (sk, st) else (sk, { st with defined := n :: st.defined })
  | .importDirective p =>
      if sk then (sk, st)
      else if st.imported.contains p then
        (sk, { st with importEvents := st.importEvents ++ [p] })
      else
        (sk, { st with imported := p :: st.imported,
                       importEvents := st.importEvents ++ [p],
                       vendorExpansions := st.vendorExpansions ++ [p] })
  | .includeDirective p =>
      if sk then (sk, st)
      else
        (sk, { st with imported := if st.imported.contains p then st.imported
                                   else p :: st.imported,
                       importEvents := st.importEvents ++ [p],
                       vendorExpansions := st.vendorExpansions ++ [p] })
  | .endifDirective _ => (false, st)

/-- Run the preprocessor over a list of lines. -/
def processLines (st : PPState) (sk : Bool) : List PPLine → PPState
  | [] => st
  | l :: ls =>
      let r := processLine sk st l
      processLines r.2 r.1 ls

/-- The include-guard macro of the artifact (lines 8, 9 and 18). -/
def guardSymbol : String := "Ghostty_header_h"

/-- The vendored umbrella header path imported on line 16. -/
def umbrellaHeaderPath : String := "ghostty/Vendor/include/ghostty.h"

/-- The lower-level vendored header that the comments warn against. -/
def vtHeaderPath : String := "ghostty/vt.h"

/-- Line-by-line transcription of `Ghostty-header.h` (18 physical
lines, in order). -/
def ghosttyHeaderLines : List PPLine :=
  [ .comment ("//"),
    .comment ("//  Ghostty-header.h"),
    .comment ("//  CodMate"),
    .comment ("//"),
    .comment ("//  Bridging header to expose Ghostty C API to Swift"),
    .comment ("//"),
    .blank,
    .ifndefDirective guardSymbol,
    .defineDirective guardSymbol,
    .blank,
    .comment ("// Import the main Ghostty C API"),
    .comment ("// Note: ghostty.h already includes all necessary definitions"),
    .comment ("// Do NOT include ghostty/vt.h as it causes duplicate enum definitions"),
    .comment ("// NOTE: This file is excluded from Package.swift and may not be in use."),
    .comment ("// The correct path is now ghostty/Vendor/include/ghostty.h"),
    .importDirective umbrellaHeaderPath,
    .blank,
    .endifDirective ("/* Ghostty_header_h */") ]

/-- Effect on a translation-unit state of including `Ghostty-header.h`
once (the preprocessor runs over its 18 lines, starting outside any
skipped region). -/
def includeGhosttyHeader (st : PPState) : PPState :=
  processLines st false ghosttyHeaderLines

/-- Effect of including `Ghostty-header.h` a given number of times. -/
def includeN (st : PPState) : Nat → PPState
  | 0 => st
  | n + 1 => includeGhosttyHeader (includeN st n)

/-- True for the inclusion-directive lines of a header. -/
def isInclusionLine : PPLine → Bool
  | .importDirective _ => true
  | .includeDirective _ => true
  | _ => false

/-- True for the include-guard lines of the artifact: `#ifndef` or
`#define` of the guard macro, or the closing `#endif`. -/
def isGuardLine : PPLine → Bool
  | .ifndefDirective n => n == guardSymbol
  | .defineDirective n => n == guardSymbol
  | .endifDirective _ => true
  | _ => false

/-- True for comments and blank lines. -/
def isCommentOrBlank : PPLine → Bool
  | .comment _ => true
  | .blank => true
  | _ => false

/-- True for C declaration lines. -/
def isDeclarationLine : PPLine → Bool
  | .declaration _ => true
  | _ => false

/-- Modelled from the spec: the contents of the two vendored candidate
headers are not under `src/` (they belong to the vendored Ghostty
dependency).  Per the spec and the source comment on line 13, the
umbrella header `ghostty.h` "already includes all necessary
definitions" and additionally including `ghostty/vt.h` "causes
duplicate enum definitions"; so the umbrella header's declarations are
modelled as a strict superset of the lower-level header's enum/type
declarations, with representative shared names. -/
def vendorDecls (p : String) : List String :=
  if p = umbrellaHeaderPath then
    [("ghostty_app_t"), ("ghostty_key_action_e"), ("ghostty_color_s")]
  else if p = vtHeaderPath then
    [("ghostty_key_action_e"), ("ghostty_color_s")]
  else []

/-- All C declarations contributed by a set of expanded headers. -/
def expandedDecls (hs : List String) : List String :=
  hs.flatMap vendorDecls

/-- Modelled from the spec: a translation unit compiles exactly when no
enum/type name is declared twice among the headers it expanded. -/
def tuCompiles (hs : List String) : Prop :=
  (expandedDecls hs).Nodup

instance (hs : List String) : Decidable (tuCompiles hs) := by
  unfold tuCompiles; infer_instance

/-- The candidate-header content of a translation unit that expanded
the umbrella header or the lower-level header according to two flags. -/
def tuImports (withUmbrella withVt : Bool) : List String :=
  (if withUmbrella then [umbrellaHeaderPath] else [])
    ++ (if withVt then [vtHeaderPath] else [])

/-- Full characterization of one inclusion of the bridging header: if
the guard macro is already defined nothing changes; otherwise the guard
macro is defined, the import line fires once, and the vendored umbrella
header is expanded unless it was already brought in. -/
theorem includeGhosttyHeader_run (st : PPState) :
    includeGhosttyHeader st =
      if st.defined.contains guardSymbol then st
      else
        { st with
          defined := guardSymbol :: st.defined,
          imported := if st.imported.contains umbrellaHeaderPath then st.imported
                      else umbrellaHeaderPath :: st.imported,
          importEvents := st.importEvents ++ [umbrellaHeaderPath],
          vendorExpansions := if st.imported.contains umbrellaHeaderPath then
                                st.vendorExpansions
                              else st.vendorExpansions ++ [umbrellaHeaderPath] } := by
  by_cases hd : guardSymbol ∈ st.defined
  · simp [includeGhosttyHeader, ghosttyHeaderLines, processLines, processLine, hd]
  · by_cases hi : umbrellaHeaderPath ∈ st.imported
    · simp [includeGhosttyHeader, ghosttyHeaderLines, processLines, processLine, hd, hi]
    · simp [includeGhosttyHeader, ghosttyHeaderLines, processLines, processLine, hd, hi]

/-- A second inclusion of the header in a fresh translation unit is a
no-op. -/
theorem includeGhosttyHeader_idem_empty :
    includeGhosttyHeader (includeGhosttyHeader emptyState)
      = includeGhosttyHeader emptyState := by
  decide

/-- Any positive number of inclusions in a fresh translation unit
yields the state of a single inclusion. -/
theorem includeN_empty_succ (n : Nat) :
    includeN emptyState (n + 1) = includeGhosttyHeader emptyState := by
  induction n with
  | zero => rfl
  | succ m ih =>
      show includeGhosttyHeader (includeN emptyState (m + 1))
        = includeGhosttyHeader emptyState
      rw [ih, includeGhosttyHeader_idem_empty]

/-- Once a header path has been brought in, further `#import` lines for
it expand nothing further. -/
theorem processLines_replicate_import_absorbed (p : String) (n : Nat) :
    ∀ st : PPState, p ∈ st.imported →
      (processLines st false
          (List.replicate n (PPLine.importDirective p))).vendorExpansions
        = st.vendorExpansions := by
  induction n with
  | zero => intro st _; rfl
  | succ m ih =>
      intro st h
      have hstep : processLines st false
          (List.replicate (m + 1) (PPLine.importDirective p))
          = processLines { st with importEvents := st.importEvents ++ [p] } false
              (List.replicate m (PPLine.importDirective p)) := by
        simp [List.replicate_succ, processLines, processLine, h]
      rw [hstep]
      exact ih _ h

/-- C1: in any build configuration of this repository (a translation
unit that includes the bridging header some positive number of times),
exactly one of the two candidate vendored headers is included: the
umbrella header `ghostty.h` is in the imported set, the lower-level
header `ghostty/vt.h` is not, and the imported set holds exactly one of
the two candidates. -/
theorem ghostty_exactly_one_candidate_included (n : Nat) (h : 1 ≤ n) :
    (includeN emptyState n).imported.contains umbrellaHeaderPath = true ∧
    (includeN emptyState n).imported.contains vtHeaderPath = false ∧
    ((includeN emptyState n).imported.countP
        (fun p => p == umbrellaHeaderPath || p == vtHeaderPath)) = 1 := by
  obtain ⟨m, rfl⟩ : ∃ m, n = m + 1 := ⟨n - 1, by omega⟩
  rw [includeN_empty_succ m]
  decide

/-- Witness for C1 at a concrete input: two inclusions of the header. -/
theorem ghostty_exactly_one_candidate_included_witness :
    1 ≤ 2 ∧
      ((includeN emptyState 2).imported.contains umbrellaHeaderPath = true ∧
       (includeN emptyState 2).imported.contains vtHeaderPath = false ∧
       ((includeN emptyState 2).imported.countP
           (fun p => p == umbrellaHeaderPath || p == vtHeaderPath)) = 1) :=
  ⟨by decide, ghostty_exactly_one_candidate_included 2 (by decide)⟩

/-- C2: the file contains exactly one inclusion directive, an `#import`
of the vendored path `ghostty/Vendor/include/ghostty.h`, and every
other line is part of the include guard, a comment, or blank. -/
theorem ghostty_single_import_directive :
    ghosttyHeaderLines.filter isInclusionLine
        = [PPLine.importDirective umbrellaHeaderPath] ∧
    ghosttyHeaderLines.all
        (fun l => isInclusionLine l || isGuardLine l || isCommentOrBlank l) = true := by
  decide

/-- C3: inclusion of the header is idempotent: any positive number of
inclusions in a fresh translation unit leaves the same state as one
inclusion, and the guarded content (whose one effectful line is the
import) is expanded exactly once, as witnessed by the trace of executed
inclusion lines. -/
theorem ghostty_inclusion_idempotent (n : Nat) (h : 1 ≤ n) :
    includeN emptyState n = includeGhosttyHeader emptyState ∧
    (includeN emptyState n).importEvents = [umbrellaHeaderPath] := by
  obtain ⟨m, rfl⟩ : ∃ m, n = m + 1 := ⟨n - 1, by omega⟩
  refine ⟨includeN_empty_succ m, ?_⟩
  rw [includeN_empty_succ m]
  decide

/-- Witness for C3 at a concrete input: three inclusions of the header. -/
theorem ghostty_inclusion_idempotent_witness :
    1 ≤ 3 ∧
      (includeN emptyState 3 = includeGhosttyHeader emptyState ∧
       (includeN emptyState 3).importEvents = [umbrellaHeaderPath]) :=
  ⟨by decide, ghostty_inclusion_idempotent 3 (by decide)⟩

/-- C4: compilation fails exactly when both candidate vendored headers
are expanded in the translation unit (duplicate enum/type definitions),
and the translation unit obtained by including only this bridging
header compiles. -/
theorem ghostty_duplicate_definitions_iff_both_headers :
    (∀ u v : Bool, ¬ tuCompiles (tuImports u v) ↔ (u = true ∧ v = true)) ∧
    tuCompiles (includeGhosttyHeader emptyState).imported := by
  decide

/-- C5: the file contains no C declarations (no functions, types,
variables or executable statements), and apart from its effect on the
preprocessor state, including it contributes no declarations to any
translation unit. -/
theorem ghostty_header_declares_nothing :
    ghosttyHeaderLines.countP isDeclarationLine = 0 ∧
    ∀ st : PPState, (includeGhosttyHeader st).decls = st.decls := by
  refine ⟨by decide, ?_⟩
  intro st
  rw [includeGhosttyHeader_run st]
  split <;> rfl

/-- C6: the artifact is exactly 18 lines long and its sole effect is to
bring in the vendored umbrella header. -/
theorem ghostty_header_is_18_line_shim :
    ghosttyHeaderLines.length = 18 ∧
    (includeGhosttyHeader emptyState).imported = [umbrellaHeaderPath] := by
  decide

/-- C7: the frame condition of one inclusion: from any state, either
the guard macro is already defined and nothing at all changes, or the
only changes are defining the guard macro `Ghostty_header_h`, the once
firing of the single import line, and the expansion of the umbrella
header it introduces (skipped if already present); in particular no
other macro is defined and no declaration is added. -/
theorem ghostty_include_frame_condition (st : PPState) :
    includeGhosttyHeader st =
      if st.defined.contains guardSymbol then st
      else
        { st with
          defined := guardSymbol :: st.defined,
          imported := if st.imported.contains umbrellaHeaderPath then st.imported
                      else umbrellaHeaderPath :: st.imported,
          importEvents := st.importEvents ++ [umbrellaHeaderPath],
          vendorExpansions := if st.imported.contains umbrellaHeaderPath then
                                st.vendorExpansions
                              else st.vendorExpansions ++ [umbrellaHeaderPath] } :=
  includeGhosttyHeader_run st

/-- C8: line 16 of the file is an `#import` directive (not `#include`)
for the vendored umbrella header, and by the once-only semantics of
`#import`, a translation unit consisting of any number of repetitions
of that directive, with no include guard at all, expands the target at
most once. -/
theorem ghostty_import_once_only_semantics (n : Nat) :
    ghosttyHeaderLines[15]? = some (PPLine.importDirective umbrellaHeaderPath) ∧
    (processLines emptyState false
        (List.replicate n (PPLine.importDirective umbrellaHeaderPath))).vendorExpansions.length
      ≤ 1 := by
  refine ⟨by decide, ?_⟩
  cases n with
  | zero => decide
  | succ m =>
      have h1 : umbrellaHeaderPath ∈
          (PPState.mk [] [umbrellaHeaderPath] [umbrellaHeaderPath]
            [umbrellaHeaderPath] []).imported := by decide
      have h2 : processLines emptyState false
          (List.replicate (m + 1) (PPLine.importDirective umbrellaHeaderPath))
          = processLines
              (PPState.mk [] [umbrellaHeaderPath] [umbrellaHeaderPath]
                [umbrellaHeaderPath] []) false
              (List.replicate m (PPLine.importDirective umbrellaHeaderPath)) := by
        simp [List.replicate_succ, processLines, processLine, emptyState]
      rw [h2, processLines_replicate_import_absorbed _ _ _ h1]
      decide

/-- C9: the file itself documents, in its comment lines, that it is
excluded from Package.swift and may not be in use, and that the correct
include path is now the vendored one. -/
theorem ghostty_header_documents_package_exclusion :
    (PPLine.comment ("// NOTE: This file is excluded from Package.swift and may not be in use.")
        ∈ ghosttyHeaderLines) ∧
    (PPLine.comment ("// The correct path is now ghostty/Vendor/include/ghostty.h")
        ∈ ghosttyHeaderLines) := by
  decide
